import Mathlib

/-
Verification development for the ContrastMate scanning-and-classification
engine: a shallow embedding of the WCAG contrast utilities (src/contrast.ts)
and of the scanning engine (the scanner module), with theorems checking the
specification's statements against the embedded code.

JavaScript numbers are modelled as real numbers; `Math.pow` is modelled by
`Real.rpow` (all bases that occur are nonnegative, where the two agree).
-/

namespace ContrastMate

noncomputable section

/-- Colors in the engine: four components, nominally in the 0-1 range
(types.ts `RGBA`).  The plain `RGB` values of the source are embedded as
`RGBA` with alpha 1; none of the functions below reads the alpha of a value
standing for an `RGB`. -/
structure RGBA where
  r : ℝ
  g : ℝ
  b : ℝ
  a : ℝ

/-- The four WCAG threshold constants (contrast.ts `WCAG_THRESHOLDS`). -/
structure WCAGThresholds where
  AA_NORMAL : ℝ
  AA_LARGE : ℝ
  AAA_NORMAL : ℝ
  AAA_LARGE : ℝ

/-- contrast.ts `WCAG_THRESHOLDS` constant object. -/
def WCAG_THRESHOLDS : WCAGThresholds :=
  { AA_NORMAL := 4.5, AA_LARGE := 3.0, AAA_NORMAL := 7.0, AAA_LARGE := 4.5 }

/-- The large-text pixel thresholds (contrast.ts `LARGE_TEXT_THRESHOLD`);
only the two pixel fields are read by the code under verification. -/
structure LargeTextThreshold where
  BOLD_PX : ℝ
  REGULAR_PX : ℝ

/-- contrast.ts `LARGE_TEXT_THRESHOLD` constant object (pixel fields). -/
def LARGE_TEXT_THRESHOLD : LargeTextThreshold :=
  { BOLD_PX := 18.67, REGULAR_PX := 24 }

/-- contrast.ts `clampColor`: clamp a channel value into [0,1]. -/
def clampColor (value : ℝ) : ℝ :=
  max 0 (min 1 value)

/-- contrast.ts `sRGBToLinear`: sRGB gamma expansion of a clamped channel. -/
def sRGBToLinear (value : ℝ) : ℝ :=
  let v := clampColor value
  if v ≤ 0.04045 then v / 12.92 else ((v + 0.055) / 1.055) ^ (2.4 : ℝ)

/-- contrast.ts `calculateRelativeLuminance` (WCAG 2.1 relative luminance). -/
def calculateRelativeLuminance (color : RGBA) : ℝ :=
  0.2126 * sRGBToLinear color.r + 0.7152 * sRGBToLinear color.g
    + 0.0722 * sRGBToLinear color.b

/-- contrast.ts `calculateContrastRatio`: (lighter + 0.05) / (darker + 0.05). -/
def calculateContrastRatio (foreground background : RGBA) : ℝ :=
  let lum1 := calculateRelativeLuminance foreground
  let lum2 := calculateRelativeLuminance background
  (max lum1 lum2 + 0.05) / (min lum1 lum2 + 0.05)

/-- contrast.ts `blendColors`: source-over composite of `foreground` over
`background` using only the foreground alpha.  The source returns an `RGB`;
we return it as an `RGBA` with alpha 1 (that alpha is never read). -/
def blendColors (foreground background : RGBA) : RGBA :=
  { r := foreground.r * foreground.a + background.r * (1 - foreground.a)
    g := foreground.g * foreground.a + background.g * (1 - foreground.a)
    b := foreground.b * foreground.a + background.b * (1 - foreground.a)
    a := 1 }

/-- contrast.ts `calculateContrastRatioWithAlpha`. -/
def calculateContrastRatioWithAlpha (foreground background : RGBA) : ℝ :=
  if 0.999 ≤ foreground.a then calculateContrastRatio foreground background
  else calculateContrastRatio (blendColors foreground background) background

/-- types.ts `WCAGLevel`: the four compliance levels. -/
inductive WCAGLevel where
  | AAA
  | AA
  | AALarge
  | FAIL
  deriving DecidableEq, Repr

/-- The keyword-to-weight map of contrast.ts `parseFontWeight`
(the JavaScript object literal `weightMap`, in declaration order). -/
def weightMap : List (String × ℕ) :=
  [("thin", 100), ("hairline", 100), ("extralight", 200), ("ultralight", 200),
   ("light", 300), ("normal", 400), ("regular", 400), ("medium", 500),
   ("semibold", 600), ("demibold", 600), ("bold", 700), ("extrabold", 800),
   ("ultrabold", 800), ("black", 900), ("heavy", 900)]

/-- JavaScript `String.prototype.toLowerCase`, embedded character-wise
(`Char.toLower` agrees with it on the ASCII range, which is all the font
keyword matching below inspects). -/
def jsToLowerCase (s : String) : String :=
  (s.toList.map Char.toLower).asString

/-- The normalisation step of contrast.ts `parseFontWeight`:
`weight.toLowerCase().replace(/[^a-z]/g, '')` — lower-case the string and
keep only the characters a-z. -/
def normalizeWeightName (weight : String) : String :=
  ((jsToLowerCase weight).toList.filter fun c => decide ('a' ≤ c) && decide (c ≤ 'z')).asString

/-- contrast.ts `parseFontWeight`: exact lookup of the normalised name in
`weightMap`, defaulting to 400 (`weightMap[normalized] ?? 400`). -/
def parseFontWeight (weight : String) : ℕ :=
  match weightMap.find? fun p => p.1 == normalizeWeightName weight with
  | some p => p.2
  | none => 400

/-- The `number | string` union type of the `fontWeight` value flowing into
contrast.ts `isLargeText` (and stored in `FontInfo`). -/
inductive FontWeight where
  | num (w : ℝ)
  | str (s : String)

/-- The weight-coercion step at the top of contrast.ts `isLargeText`:
a string weight goes through `parseFontWeight`, a number is used as is. -/
def FontWeight.toNumber : FontWeight → ℝ
  | .num w => w
  | .str s => (parseFontWeight s : ℝ)

/-- contrast.ts `isLargeText`: bold (weight ≥ 700) text is large from
`BOLD_PX` up, other text from `REGULAR_PX` up. -/
def isLargeText (fontSize : ℝ) (fontWeight : FontWeight) : Bool :=
  let weight := fontWeight.toNumber
  let isBold := decide (700 ≤ weight)
  if isBold then decide (LARGE_TEXT_THRESHOLD.BOLD_PX ≤ fontSize)
  else decide (LARGE_TEXT_THRESHOLD.REGULAR_PX ≤ fontSize)

/-- contrast.ts `getWCAGLevel`: level assignment from ratio and text size. -/
def getWCAGLevel (contrastRatio : ℝ) (isLarge : Bool) : WCAGLevel :=
  if isLarge then
    if WCAG_THRESHOLDS.AAA_LARGE ≤ contrastRatio then .AAA
    else if WCAG_THRESHOLDS.AA_LARGE ≤ contrastRatio then .AALarge
    else .FAIL
  else
    if WCAG_THRESHOLDS.AAA_NORMAL ≤ contrastRatio then .AAA
    else if WCAG_THRESHOLDS.AA_NORMAL ≤ contrastRatio then .AA
    else .FAIL

/-- contrast.ts `passesWCAG_AA`: ratio at or above the AA threshold for the
given text size. -/
def passesWCAG_AA (contrastRatio : ℝ) (isLarge : Bool) : Bool :=
  let threshold := if isLarge then WCAG_THRESHOLDS.AA_LARGE else WCAG_THRESHOLDS.AA_NORMAL
  decide (threshold ≤ contrastRatio)

/-- The scanner's `parseFontWeightFromStyle` (scanning engine module):
ordered case-insensitive substring matching, first match wins, default 400.
JavaScript `String.prototype.includes` is embedded as `jsIncludes` below. -/
def jsIncludes (s sub : String) : Bool :=
  decide (List.IsInfix sub.toList s.toList)

/-- Scanner `parseFontWeightFromStyle`. -/
def parseFontWeightFromStyle (style : String) : ℕ :=
  let normalized := jsToLowerCase style
  if jsIncludes normalized "black" || jsIncludes normalized "heavy" then 900
  else if jsIncludes normalized "extrabold" || jsIncludes normalized "ultrabold" then 800
  else if jsIncludes normalized "bold" then 700
  else if jsIncludes normalized "semibold" || jsIncludes normalized "demibold" then 600
  else if jsIncludes normalized "medium" then 500
  else if jsIncludes normalized "regular" || jsIncludes normalized "normal" then 400
  else if jsIncludes normalized "light" then 300
  else if jsIncludes normalized "extralight" || jsIncludes normalized "ultralight" then 200
  else if jsIncludes normalized "thin" || jsIncludes normalized "hairline" then 100
  else 400

/-- types.ts `AccessibilityIssueType`. -/
inductive AccessibilityIssueType where
  | none
  | contrastFail
  | missingFont
  | noBackground
  deriving DecidableEq, Repr

/-- types.ts `LineHeightInfo.unit`. -/
inductive LineHeightUnit where
  | PIXELS
  | PERCENT
  | AUTO
  deriving DecidableEq, Repr

/-- types.ts `LineHeightInfo`. -/
structure LineHeightInfo where
  value : ℝ
  unit : LineHeightUnit

/-- types.ts `FontInfo`.  In the source this is produced per text node by the
asynchronous `extractFontInfo` (style lookup, mixed-font sampling, font-load
probe against the host); those host interactions are outside the pure model,
so the resolved `FontInfo` is carried as data on the text node itself. -/
structure FontInfo where
  fontFamily : String
  fontSize : ℝ
  fontWeight : FontWeight
  lineHeight : LineHeightInfo
  letterSpacing : ℝ
  fontStyle : String
  isMissing : Bool

/-- Fill/paint type tag; the engine only distinguishes `'SOLID'` from
everything else, so the other Figma paint types are collapsed. -/
inductive PaintType where
  | SOLID
  | OTHER
  deriving DecidableEq, Repr

/-- One entry of a Figma `fills` / `backgrounds` array, restricted to the
fields the engine reads.  `visible = none` models the property being absent
(`fill.visible !== false` is then true); `opacity = none` models an absent
opacity (`fill.opacity ?? 1`).  `r`, `g`, `b` are the entry's `color`. -/
structure Paint where
  type : PaintType
  visible : Option Bool
  opacity : Option ℝ
  r : ℝ
  g : ℝ
  b : ℝ

/-- A Figma `absoluteBoundingBox`. -/
structure Rect where
  x : ℝ
  y : ℝ
  width : ℝ
  height : ℝ

/-- Scene-node type tag; the engine branches only on `'TEXT'` (and never meets
`'PAGE'`/`'DOCUMENT'` inside a scene subtree), so other types are collapsed. -/
inductive NodeType where
  | TEXT
  | OTHER
  deriving DecidableEq, Repr

/-- The per-node data of a scene node, restricted to the properties the
scanning engine reads.  `fills = none` models a node without a `fills`
property or with `figma.mixed` fills; `bounds = none` models a null
`absoluteBoundingBox` (or a bounds lookup that throws).  `id` stands for the
opaque Figma node id; `children.indexOf(node)` (reference equality) is
modelled as lookup of this id, ids being unique within a document. -/
structure NodeData where
  id : ℕ
  name : String
  nodeType : NodeType
  visible : Bool
  fills : Option (List Paint)
  bounds : Option Rect
  characters : String
  fontInfo : FontInfo

/-- A scene node: its own data plus its ordered children (lower index =
drawn further behind). -/
inductive SceneNode where
  | node (data : NodeData) (children : List SceneNode)

/-- The data of a scene node. -/
def SceneNode.data : SceneNode → NodeData
  | .node d _ => d

/-- The children list of a scene node. -/
def SceneNode.children : SceneNode → List SceneNode
  | .node _ c => c

/-- The id of a scene node. -/
def SceneNode.id (n : SceneNode) : ℕ := n.data.id

/-- The name of a scene node. -/
def SceneNode.name (n : SceneNode) : String := n.data.name

/-- The fills of a scene node. -/
def SceneNode.fills (n : SceneNode) : Option (List Paint) := n.data.fills

/-- The bounding box of a scene node. -/
def SceneNode.bounds (n : SceneNode) : Option Rect := n.data.bounds

/-- The characters of a (text) scene node. -/
def SceneNode.characters (n : SceneNode) : String := n.data.characters

/-- The resolved font information of a (text) scene node. -/
def SceneNode.fontInfo (n : SceneNode) : FontInfo := n.data.fontInfo

/-- A page: the engine reads only its `backgrounds` array. -/
structure Page where
  backgrounds : List Paint

/-- Scanner `DEFAULT_BACKGROUND` constant (opaque white). -/
def DEFAULT_BACKGROUND : RGBA := { r := 1, g := 1, b := 1, a := 1 }

/-- Scanner `FIGMA_CANVAS_COLOR` constant (declared in the source, unused by
the scan path). -/
def FIGMA_CANVAS_COLOR : RGBA := { r := 0.898, g := 0.898, b := 0.898, a := 1 }

/-- The fill-acceptance test repeated in the source's fill loops:
`fill.visible !== false && fill.type === 'SOLID'`. -/
def fillAccepted (fill : Paint) : Bool :=
  !(fill.visible == some false) && fill.type == PaintType.SOLID

/-- The RGBA value the source builds from an accepted fill: its color with
`fill.opacity ?? 1` as alpha. -/
def paintRGBA (fill : Paint) : RGBA :=
  { r := fill.r, g := fill.g, b := fill.b, a := fill.opacity.getD 1 }

/-- The fill-list scan the source repeats in `extractTextColor`,
`findBackgroundColor` and `findSiblingBackground`: first visible solid entry
in declaration order, with its opacity as alpha. -/
def firstVisibleSolidFill (fills : List Paint) : Option RGBA :=
  (fills.find? fillAccepted).map paintRGBA

/-- Scanner `extractTextColor`: first visible solid fill of the text node,
defaulting to opaque black (also when fills are mixed or absent). -/
def extractTextColor (node : SceneNode) : RGBA :=
  match node.fills with
  | Option.none => { r := 0, g := 0, b := 0, a := 1 }
  | some fills => (firstVisibleSolidFill fills).getD { r := 0, g := 0, b := 0, a := 1 }

/-- Scanner `checkOverlap`: strict axis-aligned bounding-box intersection;
a missing bounding box (or a throwing bounds lookup, caught in the source)
yields `false`. -/
def checkOverlap (node1 node2 : SceneNode) : Bool :=
  match node1.bounds, node2.bounds with
  | some bounds1, some bounds2 =>
      !(decide (bounds1.x + bounds1.width ≤ bounds2.x)
        || decide (bounds2.x + bounds2.width ≤ bounds1.x)
        || decide (bounds1.y + bounds1.height ≤ bounds2.y)
        || decide (bounds2.y + bounds2.height ≤ bounds1.y))
  | _, _ => false

/-- Scanner `findSiblingBackground`: look `textNode` up among `parent`'s
children (`indexOf`, -1 when absent, embedded as `findIdx?` on the node id);
when found at a positive index, scan the children drawn behind it from
nearest-behind outward and return the first visible solid fill of the first
overlapping sibling that has one. -/
def findSiblingBackground (textNode parent : SceneNode) : Option RGBA :=
  let children := parent.children
  match children.findIdx? fun c => c.id == textNode.id with
  | Option.none => Option.none
  | some 0 => Option.none
  | some (i + 1) =>
      ((children.take (i + 1)).reverse).findSome? fun sibling =>
        if checkOverlap textNode sibling then
          match sibling.fills with
          | some fills => firstVisibleSolidFill fills
          | Option.none => Option.none
        else Option.none

/-- The own-fill part of one iteration of the `findBackgroundColor` loop:
the ancestor's first visible solid fill, when it exposes a usable fill list
(`'fills' in current`, not mixed). -/
def ancestorOwnFill (current : SceneNode) : Option RGBA :=
  match current.fills with
  | some fills => firstVisibleSolidFill fills
  | Option.none => Option.none

/-- The page-background fallback at the end of `findBackgroundColor`: only
the FIRST entry of `page.backgrounds` is consulted, and only when it is a
visible solid.  `page? = none` models the ancestor walk ending at a detached
root (or the document) instead of a page. -/
def pageBackgroundColor (page? : Option Page) : Option RGBA :=
  match page? with
  | Option.none => Option.none
  | some page =>
      match page.backgrounds with
      | [] => Option.none
      | bg :: _ => if fillAccepted bg then some (paintRGBA bg) else Option.none

/-- Scanner `findBackgroundColor`: walk the ancestor chain (immediate parent
first, page excluded), trying at each level the ancestor's own fill, then a
sibling behind the text node, and finally the page background.  `ancestors`
is the chain `node.parent, node.parent.parent, …` up to but excluding the
page/document. -/
def findBackgroundColor (node : SceneNode) : List SceneNode → Option Page → Option RGBA
  | [], page? => pageBackgroundColor page?
  | current :: rest, page? =>
      match ancestorOwnFill current with
      | some color => some color
      | Option.none =>
          match findSiblingBackground node current with
          | some color => some color
          | Option.none => findBackgroundColor node rest page?

/-- Collapse every run of spaces into a single space (the effect of the
source's `replace(/\s+/g, ' ')` after whitespace has been mapped to `' '`). -/
def squeezeSpaces : List Char → List Char
  | [] => []
  | c :: rest =>
      let tail := squeezeSpaces rest
      if c == ' ' then
        match tail with
        | ' ' :: _ => tail
        | _ => c :: tail
      else c :: tail

/-- JavaScript `text.replace(/\s+/g, ' ')`: each maximal whitespace run
becomes one space. -/
def collapseWhitespaceRuns (s : String) : String :=
  (squeezeSpaces (s.toList.map fun c => if c.isWhitespace then ' ' else c)).asString

/-- JavaScript `String.prototype.trim`, embedded character-wise. -/
def jsTrim (s : String) : String :=
  ((s.toList.dropWhile Char.isWhitespace).reverse.dropWhile Char.isWhitespace).reverse.asString

/-- Scanner `truncateText` at its default `maxLength = 50` (the only call
site uses the default): whitespace-collapse, trim, and truncate to 47
characters plus `"..."` when longer than 50. -/
def truncateText (text : String) : String :=
  let cleaned := jsTrim (collapseWhitespaceRuns text)
  if cleaned.length ≤ 50 then cleaned
  else (cleaned.toList.take (50 - 3)).asString ++ "..."

/-- Scanner `getParentName`: the immediate parent's name, `"Page"` when the
parent is the page, `"Root"` when there is no parent. -/
def getParentName (ancestors : List SceneNode) (page? : Option Page) : String :=
  match ancestors with
  | parent :: _ => parent.name
  | [] =>
      match page? with
      | some _ => "Page"
      | Option.none => "Root"

/-- types.ts `TextLayerData.position`. -/
structure Position where
  x : ℝ
  y : ℝ

/-- types.ts `TextLayerData.size`. -/
structure Size where
  width : ℝ
  height : ℝ

/-- types.ts `TextLayerData`: one record per qualifying text node. -/
structure TextLayerData where
  id : ℕ
  name : String
  characters : String
  fullCharacters : String
  fontInfo : FontInfo
  textColor : RGBA
  backgroundColor : Option RGBA
  contrastRatio : ℝ
  wcagLevel : WCAGLevel
  isLargeText : Bool
  position : Position
  size : Size
  parentName : String
  hasAccessibilityIssue : Bool
  issueType : AccessibilityIssueType

/-- types.ts `ScanOptions`.  The `onProgress` callback is an observer with no
influence on the produced records or counts and is not part of the pure
model. -/
structure ScanOptions where
  minContrastRatio : ℝ
  checkLargeText : Bool
  includeHiddenLayers : Bool
  timeout : Option ℕ

/-- Scanner `processTextNode`: skip whitespace-only text, resolve colors and
background, compute contrast (against the default white background when none
was found, flagging `no-background`), classify, and assemble the record.
The `options` parameter is accepted, as in the source, and never read. -/
def processTextNode (node : SceneNode) (ancestors : List SceneNode)
    (page? : Option Page) (options : ScanOptions) : Option TextLayerData :=
  if jsTrim node.characters == "" then Option.none
  else
    let fontInfo := node.fontInfo
    let textColor := extractTextColor node
    let backgroundColor := findBackgroundColor node ancestors page?
    let contrastRatio :=
      match backgroundColor with
      | some bg => calculateContrastRatioWithAlpha textColor bg
      | Option.none => calculateContrastRatioWithAlpha textColor DEFAULT_BACKGROUND
    let issueTypeFromBackground : AccessibilityIssueType :=
      match backgroundColor with
      | some _ => .none
      | Option.none => .noBackground
    let largeText := isLargeText fontInfo.fontSize fontInfo.fontWeight
    let wcagLevel := getWCAGLevel contrastRatio largeText
    let issueType :=
      if fontInfo.isMissing then AccessibilityIssueType.missingFont
      else if !(passesWCAG_AA contrastRatio largeText) then AccessibilityIssueType.contrastFail
      else issueTypeFromBackground
    some
      { id := node.id
        name := node.name
        characters := truncateText node.characters
        fullCharacters := node.characters
        fontInfo := fontInfo
        textColor := textColor
        backgroundColor := backgroundColor
        contrastRatio := contrastRatio
        wcagLevel := wcagLevel
        isLargeText := largeText
        position := { x := (node.bounds.map Rect.x).getD 0, y := (node.bounds.map Rect.y).getD 0 }
        size :=
          { width := (node.bounds.map Rect.width).getD 0
            height := (node.bounds.map Rect.height).getD 0 }
        parentName := getParentName ancestors page?
        hasAccessibilityIssue := decide (issueType ≠ AccessibilityIssueType.none)
        issueType := issueType }

mutual

/-- Scanner `scanNodeRecursive`: skip hidden subtrees unless
`includeHiddenLayers`, record text nodes, then recurse into the children in
order (pushing the node onto the ancestor chain of its children). -/
def scanNodeRecursive (node : SceneNode) (ancestors : List SceneNode)
    (page? : Option Page) (options : ScanOptions) : List TextLayerData :=
  match node with
  | .node data children =>
      if !options.includeHiddenLayers && !data.visible then []
      else
        (if data.nodeType == NodeType.TEXT then
          (processTextNode (.node data children) ancestors page? options).toList
        else [])
          ++ scanChildrenNodes children (SceneNode.node data children :: ancestors) page? options

/-- The `for (const child of children)` loop inside `scanNodeRecursive`. -/
def scanChildrenNodes (nodes : List SceneNode) (ancestors : List SceneNode)
    (page? : Option Page) (options : ScanOptions) : List TextLayerData :=
  match nodes with
  | [] => []
  | child :: rest =>
      scanNodeRecursive child ancestors page? options
        ++ scanChildrenNodes rest ancestors page? options

end

/-- One top-level root of a scan: a node of `figma.currentPage.selection`
(or, for an empty selection, a child of the page) together with its ancestor
chain up to but excluding the page. -/
structure ScanRoot where
  node : SceneNode
  ancestors : List SceneNode

/-- types.ts `ScanResult`, restricted to the fields with model content
(`scanDuration` and `timestamp` are pure clock observations). -/
structure ScanResult where
  textLayers : List TextLayerData
  totalScanned : ℕ
  errorCount : ℕ
  warningCount : ℕ
  passCount : ℕ
  timedOut : Bool

/-- The root loop of `scanSelection`: before visiting each root, compare the
elapsed wall-clock time against the timeout (`checkTimeout`); on the first
check that exceeds it, stop and mark the scan timed out, keeping the records
already produced.  `elapsed i` models `Date.now() - startTime` at the i-th
`checkTimeout` call. -/
def scanRootsLoop (options : ScanOptions) (page : Page) (timeout : ℕ)
    (elapsed : ℕ → ℕ) : List ScanRoot → ℕ → List TextLayerData × Bool
  | [], _ => ([], false)
  | root :: rest, i =>
      if timeout < elapsed i then ([], true)
      else
        let layers := scanNodeRecursive root.node root.ancestors (some page) options
        let result := scanRootsLoop options page timeout elapsed rest (i + 1)
        (layers ++ result.1, result.2)

/-- Scanner `scanSelection`: run the root loop with
`options.timeout ?? 30000` as the timeout, then assemble the result with the
issue-type counts.  `roots` is the current selection (or the page children
when the selection is empty, both branches of the source being the same
loop); progress reporting has no effect on the result and is not modelled. -/
def scanSelection (options : ScanOptions) (page : Page) (roots : List ScanRoot)
    (elapsed : ℕ → ℕ) : ScanResult :=
  let timeout := options.timeout.getD 30000
  let scanned := scanRootsLoop options page timeout elapsed roots 0
  let textLayers := scanned.1
  { textLayers := textLayers
    totalScanned := textLayers.length
    errorCount :=
      (textLayers.filter fun t => decide (t.issueType = AccessibilityIssueType.contrastFail)).length
    warningCount :=
      (textLayers.filter fun t =>
        decide (t.issueType = AccessibilityIssueType.missingFont)
          || decide (t.issueType = AccessibilityIssueType.noBackground)).length
    passCount :=
      (textLayers.filter fun t => decide (t.issueType = AccessibilityIssueType.none)).length
    timedOut := scanned.2 }

/-- A constant clock for concrete instantiations: no time ever elapses. -/
def zeroElapsed : ℕ → ℕ := fun _ => 0

end

/-- C10 counterexample: the two font-weight parsers disagree on the style
string "semibold" — the contrast module's exact-lookup parser returns 600,
while the scanner's ordered substring matcher hits the "bold" test first and
returns 700. -/
theorem c10_parsers_disagree_on_semibold :
    parseFontWeight "semibold" = 600 ∧ parseFontWeightFromStyle "semibold" = 700 ∧
      parseFontWeight "semibold" ≠ parseFontWeightFromStyle "semibold" := by
  refine ⟨by decide, by decide, by decide⟩

/-- C10 (amended): the contrast module's `parseFontWeight` and the scanner's
`parseFontWeightFromStyle` agree on the exact keyword strings thin, hairline,
light, normal, regular, medium, bold, extrabold, ultrabold, black and heavy,
and both default to 400 on a style string that matches no keyword; they
disagree on semibold and demibold (600 versus 700) and on extralight and
ultralight (200 versus 300), where the substring matcher's earlier "bold" /
"light" tests fire first. -/
theorem c10_parsers_agreement_and_divergence :
    parseFontWeight "thin" = parseFontWeightFromStyle "thin" ∧
    parseFontWeight "hairline" = parseFontWeightFromStyle "hairline" ∧
    parseFontWeight "light" = parseFontWeightFromStyle "light" ∧
    parseFontWeight "normal" = parseFontWeightFromStyle "normal" ∧
    parseFontWeight "regular" = parseFontWeightFromStyle "regular" ∧
    parseFontWeight "medium" = parseFontWeightFromStyle "medium" ∧
    parseFontWeight "bold" = parseFontWeightFromStyle "bold" ∧
    parseFontWeight "extrabold" = parseFontWeightFromStyle "extrabold" ∧
    parseFontWeight "ultrabold" = parseFontWeightFromStyle "ultrabold" ∧
    parseFontWeight "black" = parseFontWeightFromStyle "black" ∧
    parseFontWeight "heavy" = parseFontWeightFromStyle "heavy" ∧
    parseFontWeight "Oblique" = 400 ∧ parseFontWeightFromStyle "Oblique" = 400 ∧
    parseFontWeight "semibold" = 600 ∧ parseFontWeightFromStyle "semibold" = 700 ∧
    parseFontWeight "demibold" = 600 ∧ parseFontWeightFromStyle "demibold" = 700 ∧
    parseFontWeight "extralight" = 200 ∧ parseFontWeightFromStyle "extralight" = 300 ∧
    parseFontWeight "ultralight" = 200 ∧ parseFontWeightFromStyle "ultralight" = 300 := by
  decide

/-- Definitional shape of `getWCAGLevel` for large text. -/
theorem getWCAGLevel_large_def (r : ℝ) :
    getWCAGLevel r true =
      (if 4.5 ≤ r then WCAGLevel.AAA else if 3 ≤ r then WCAGLevel.AALarge else WCAGLevel.FAIL) := by
  norm_num [getWCAGLevel, WCAG_THRESHOLDS]

/-- Definitional shape of `getWCAGLevel` for normal text. -/
theorem getWCAGLevel_normal_def (r : ℝ) :
    getWCAGLevel r false =
      (if 7 ≤ r then WCAGLevel.AAA else if 4.5 ≤ r then WCAGLevel.AA else WCAGLevel.FAIL) := by
  norm_num [getWCAGLevel, WCAG_THRESHOLDS]

/-- C6: `getWCAGLevel` assigns, for large text, AAA iff the ratio is at
least 4.5, else AA-Large iff at least 3.0, else FAIL; for normal text, AAA
iff at least 7.0, else AA iff at least 4.5, else FAIL — including the
boundary table (7.0,false)→AAA, (4.5,false)→AA, (4.49,false)→FAIL,
(4.5,true)→AAA, (3.0,true)→AA-Large, (2.99,true)→FAIL. -/
theorem c6_getWCAGLevel_thresholds :
    (∀ contrastRatio : ℝ,
      (getWCAGLevel contrastRatio true = WCAGLevel.AAA ↔ 4.5 ≤ contrastRatio) ∧
      (getWCAGLevel contrastRatio true = WCAGLevel.AALarge ↔
        3 ≤ contrastRatio ∧ contrastRatio < 4.5) ∧
      (getWCAGLevel contrastRatio true = WCAGLevel.FAIL ↔ contrastRatio < 3) ∧
      (getWCAGLevel contrastRatio false = WCAGLevel.AAA ↔ 7 ≤ contrastRatio) ∧
      (getWCAGLevel contrastRatio false = WCAGLevel.AA ↔
        4.5 ≤ contrastRatio ∧ contrastRatio < 7) ∧
      (getWCAGLevel contrastRatio false = WCAGLevel.FAIL ↔ contrastRatio < 4.5)) ∧
    getWCAGLevel 7 false = WCAGLevel.AAA ∧
    getWCAGLevel 4.5 false = WCAGLevel.AA ∧
    getWCAGLevel 4.49 false = WCAGLevel.FAIL ∧
    getWCAGLevel 4.5 true = WCAGLevel.AAA ∧
    getWCAGLevel 3 true = WCAGLevel.AALarge ∧
    getWCAGLevel 2.99 true = WCAGLevel.FAIL := by
  have key : ∀ r : ℝ,
      (getWCAGLevel r true = WCAGLevel.AAA ↔ 4.5 ≤ r) ∧
      (getWCAGLevel r true = WCAGLevel.AALarge ↔ 3 ≤ r ∧ r < 4.5) ∧
      (getWCAGLevel r true = WCAGLevel.FAIL ↔ r < 3) ∧
      (getWCAGLevel r false = WCAGLevel.AAA ↔ 7 ≤ r) ∧
      (getWCAGLevel r false = WCAGLevel.AA ↔ 4.5 ≤ r ∧ r < 7) ∧
      (getWCAGLevel r false = WCAGLevel.FAIL ↔ r < 4.5) := by
    intro r
    rw [getWCAGLevel_large_def, getWCAGLevel_normal_def]
    split_ifs with h1 h2 h3 h4 <;>
    refine ⟨?_, ?_, ?_, ?_, ?_, ?_⟩ <;>
    (constructor
     · intro h
       first
         | linarith
         | (constructor <;> linarith)
         | (simp at h)
     · intro h
       first
         | rfl
         | (obtain ⟨ha, hb⟩ := h
            first
              | rfl
              | (exact (show False by linarith).elim))
         | (exact (show False by linarith).elim))
  refine ⟨key, ?_, ?_, ?_, ?_, ?_, ?_⟩
  · exact (key 7).2.2.2.1.mpr (by norm_num)
  · exact (key 4.5).2.2.2.2.1.mpr (by norm_num)
  · exact (key 4.49).2.2.2.2.2.mpr (by norm_num)
  · exact (key 4.5).1.mpr (by norm_num)
  · exact (key 3).2.1.mpr (by norm_num)
  · exact (key 2.99).2.2.1.mpr (by norm_num)

/-- C7: `isLargeText` is true exactly when the weight is at least 700 and
the size at least 18.67, or the weight is below 700 and the size at least 24
(both boundaries inclusive); a string weight is first converted by
`parseFontWeight`, which defaults to 400 on unrecognised names — checked on
the spec's boundary table. -/
theorem c7_isLargeText_thresholds :
    (∀ fontSize w : ℝ,
      (isLargeText fontSize (FontWeight.num w) = true ↔
        (700 ≤ w ∧ 18.67 ≤ fontSize) ∨ (w < 700 ∧ 24 ≤ fontSize))) ∧
    (∀ (fontSize : ℝ) (s : String),
      isLargeText fontSize (FontWeight.str s) =
        isLargeText fontSize (FontWeight.num (parseFontWeight s))) ∧
    parseFontWeight "Oblique" = 400 ∧
    isLargeText 24 (FontWeight.num 400) = true ∧
    isLargeText 23.99 (FontWeight.num 400) = false ∧
    isLargeText 18.67 (FontWeight.num 700) = true ∧
    isLargeText 18.66 (FontWeight.num 700) = false ∧
    isLargeText 18.67 (FontWeight.num 600) = false := by
  have hnum : ∀ fontSize w : ℝ,
      isLargeText fontSize (FontWeight.num w) =
        (if 700 ≤ w then decide (18.67 ≤ fontSize) else decide (24 ≤ fontSize)) := by
    intro fontSize w
    norm_num [isLargeText, FontWeight.toNumber, LARGE_TEXT_THRESHOLD]
  have key : ∀ fontSize w : ℝ,
      isLargeText fontSize (FontWeight.num w) = true ↔
        (700 ≤ w ∧ 18.67 ≤ fontSize) ∨ (w < 700 ∧ 24 ≤ fontSize) := by
    intro fontSize w
    rw [hnum]
    by_cases hw : (700 : ℝ) ≤ w
    · simp only [if_pos hw, decide_eq_true_eq]
      constructor
      · intro h; exact Or.inl ⟨hw, h⟩
      · rintro (⟨_, h⟩ | ⟨hlt, _⟩)
        · exact h
        · linarith
    · simp only [if_neg hw, decide_eq_true_eq]
      constructor
      · intro h; exact Or.inr ⟨lt_of_not_le hw, h⟩
      · rintro (⟨hge, _⟩ | ⟨_, h⟩)
        · exact absurd hge hw
        · exact h
  refine ⟨key, fun _ _ => rfl, by decide, ?_, ?_, ?_, ?_, ?_⟩
  · exact (key 24 400).mpr (Or.inr (by norm_num))
  · rw [hnum]; norm_num
  · exact (key 18.67 700).mpr (Or.inl (by norm_num))
  · rw [hnum]; norm_num
  · rw [hnum]; norm_num

/-- The clamped channel lies in [0,1]. -/
theorem clampColor_bounds (v : ℝ) : 0 ≤ clampColor v ∧ clampColor v ≤ 1 := by
  unfold clampColor
  exact ⟨le_max_left 0 _, max_le (by norm_num) (min_le_left 1 v)⟩

/-- The linearised channel is nonnegative. -/
theorem sRGBToLinear_nonneg (v : ℝ) : 0 ≤ sRGBToLinear v := by
  obtain ⟨h0, _⟩ := clampColor_bounds v
  unfold sRGBToLinear
  dsimp only
  split_ifs with h
  · exact div_nonneg h0 (by norm_num)
  · exact Real.rpow_nonneg (div_nonneg (by linarith) (by norm_num)) _

/-- The linearised channel is at most 1. -/
theorem sRGBToLinear_le_one (v : ℝ) : sRGBToLinear v ≤ 1 := by
  obtain ⟨h0, h1⟩ := clampColor_bounds v
  unfold sRGBToLinear
  dsimp only
  split_ifs with h
  · rw [div_le_one (by norm_num)]; linarith
  · refine Real.rpow_le_one (div_nonneg (by linarith) (by norm_num)) ?_ (by norm_num)
    rw [div_le_one (by norm_num)]; linarith

/-- Relative luminance lies in [0,1]. -/
theorem calculateRelativeLuminance_bounds (color : RGBA) :
    0 ≤ calculateRelativeLuminance color ∧ calculateRelativeLuminance color ≤ 1 := by
  have hr := sRGBToLinear_nonneg color.r
  have hg := sRGBToLinear_nonneg color.g
  have hb := sRGBToLinear_nonneg color.b
  have hr1 := sRGBToLinear_le_one color.r
  have hg1 := sRGBToLinear_le_one color.g
  have hb1 := sRGBToLinear_le_one color.b
  unfold calculateRelativeLuminance
  constructor <;> nlinarith

/-- Definitional shape of `calculateContrastRatio`. -/
theorem calculateContrastRatio_def (foreground background : RGBA) :
    calculateContrastRatio foreground background =
      (max (calculateRelativeLuminance foreground) (calculateRelativeLuminance background) + 0.05)
        / (min (calculateRelativeLuminance foreground) (calculateRelativeLuminance background) + 0.05) :=
  rfl

/-- C8: the contrast ratio is symmetric in its two arguments, equals 1 on a
pair of equal colors, and — channels being clamped into [0,1] before the
luminance computation — always lies in the range [1, 21]. -/
theorem c8_contrastRatio_symm_diag_range (a b : RGBA) :
    calculateContrastRatio a b = calculateContrastRatio b a ∧
    calculateContrastRatio a a = 1 ∧
    1 ≤ calculateContrastRatio a b ∧ calculateContrastRatio a b ≤ 21 := by
  obtain ⟨ha0, ha1⟩ := calculateRelativeLuminance_bounds a
  obtain ⟨hb0, hb1⟩ := calculateRelativeLuminance_bounds b
  have hmin0 : (0 : ℝ) ≤ min (calculateRelativeLuminance a) (calculateRelativeLuminance b) :=
    le_min ha0 hb0
  have hmax1 : max (calculateRelativeLuminance a) (calculateRelativeLuminance b) ≤ 1 :=
    max_le ha1 hb1
  have hpos : (0 : ℝ) < min (calculateRelativeLuminance a) (calculateRelativeLuminance b) + 0.05 := by
    linarith
  refine ⟨?_, ?_, ?_, ?_⟩
  · rw [calculateContrastRatio_def, calculateContrastRatio_def, max_comm, min_comm]
  · rw [calculateContrastRatio_def, max_self, min_self]
    exact div_self (by linarith)
  · rw [calculateContrastRatio_def, le_div_iff₀ hpos]
    have := min_le_max (a := calculateRelativeLuminance a) (b := calculateRelativeLuminance b)
    linarith
  · rw [calculateContrastRatio_def, div_le_iff₀ hpos]
    linarith

/-- C5: `checkOverlap` is true exactly when both nodes expose a bounding box
and the two boxes intersect with strict inequality on all four sides (so
rectangles that merely touch do not overlap); in particular it is false —
never an error — whenever either bounding box is absent (which also models a
throwing bounds lookup, caught by the source). -/
theorem c5_checkOverlap_strict_intersection (node1 node2 : SceneNode) :
    checkOverlap node1 node2 = true ↔
      ∃ bounds1 bounds2,
        node1.bounds = some bounds1 ∧ node2.bounds = some bounds2 ∧
        bounds2.x < bounds1.x + bounds1.width ∧ bounds1.x < bounds2.x + bounds2.width ∧
        bounds2.y < bounds1.y + bounds1.height ∧ bounds1.y < bounds2.y + bounds2.height := by
  rcases h1 : node1.bounds with _ | b1 <;> rcases h2 : node2.bounds with _ | b2 <;>
    simp [checkOverlap, h1, h2, not_or, not_le, and_assoc]

/-- C4: the background walk tries, level by level from the immediate parent
outward (the page excluded), first the ancestor's own first visible solid
fill and only then a fill from a sibling drawn behind the text node, the
first level that yields a color winning; when no level yields one, the page
background fallback (first entry only, when a visible solid) applies, and
otherwise the result is absent. -/
theorem c4_findBackgroundColor_precedence (node : SceneNode) (ancestors : List SceneNode)
    (page? : Option Page) :
    findBackgroundColor node ancestors page? =
      (ancestors.findSome? fun current =>
        (ancestorOwnFill current).orElse fun _ => findSiblingBackground node current).orElse
        (fun _ => pageBackgroundColor page?) := by
  induction ancestors with
  | nil => rfl
  | cons current rest ih =>
      cases hOwn : ancestorOwnFill current with
      | some color =>
          simp [findBackgroundColor, List.findSome?_cons, hOwn, Option.orElse]
      | none =>
          cases hSib : findSiblingBackground node current with
          | some color =>
              simp [findBackgroundColor, List.findSome?_cons, hOwn, hSib, Option.orElse]
          | none =>
              simp [findBackgroundColor, List.findSome?_cons, hOwn, hSib, Option.orElse, ih]

/-- C1: in every record produced by `processTextNode`, the issue type is
`missing-font` whenever the resolved font is missing (overriding any
contrast or background outcome); otherwise `contrast-fail` when the record's
contrast ratio fails WCAG AA for its text size; otherwise `no-background`
exactly when no background color was resolved, and `none` when one was. -/
theorem c1_issueType_precedence (node : SceneNode) (ancestors : List SceneNode)
    (page? : Option Page) (options : ScanOptions) :
    (processTextNode node ancestors page? options).map TextLayerData.issueType =
      (processTextNode node ancestors page? options).map fun record =>
        if record.fontInfo.isMissing then AccessibilityIssueType.missingFont
        else if !(passesWCAG_AA record.contrastRatio record.isLargeText) then
          AccessibilityIssueType.contrastFail
        else if record.backgroundColor.isNone then AccessibilityIssueType.noBackground
        else AccessibilityIssueType.none := by
  by_cases hempty : (jsTrim node.characters == "") = true
  · simp [processTextNode, hempty]
  · cases hbg : findBackgroundColor node ancestors page? <;>
      simp [processTextNode, hempty, hbg]

/-- Any list of records splits by issue type into the error, warning and
pass classes, each record counted exactly once. -/
theorem issueType_partition (l : List TextLayerData) :
    (l.filter fun t => decide (t.issueType = AccessibilityIssueType.contrastFail)).length
      + (l.filter fun t =>
          decide (t.issueType = AccessibilityIssueType.missingFont)
            || decide (t.issueType = AccessibilityIssueType.noBackground)).length
      + (l.filter fun t => decide (t.issueType = AccessibilityIssueType.none)).length
      = l.length := by
  induction l with
  | nil => rfl
  | cons t rest ih =>
      cases ht : t.issueType <;> simp [List.filter_cons, ht] <;> omega

/-- C2: in every `ScanResult` of `scanSelection`, `errorCount` is the number
of records classified `contrast-fail`, `warningCount` the number classified
`missing-font` or `no-background`, `passCount` the number classified `none`,
`totalScanned` is the length of the record sequence, and the three counts
partition it exactly. -/
theorem c2_scanResult_counts (options : ScanOptions) (page : Page) (roots : List ScanRoot)
    (elapsed : ℕ → ℕ) :
    (scanSelection options page roots elapsed).errorCount =
        ((scanSelection options page roots elapsed).textLayers.countP
          fun t => decide (t.issueType = AccessibilityIssueType.contrastFail)) ∧
    (scanSelection options page roots elapsed).warningCount =
        ((scanSelection options page roots elapsed).textLayers.countP
          fun t => decide (t.issueType = AccessibilityIssueType.missingFont)
            || decide (t.issueType = AccessibilityIssueType.noBackground)) ∧
    (scanSelection options page roots elapsed).passCount =
        ((scanSelection options page roots elapsed).textLayers.countP
          fun t => decide (t.issueType = AccessibilityIssueType.none)) ∧
    (scanSelection options page roots elapsed).totalScanned =
        (scanSelection options page roots elapsed).textLayers.length ∧
    (scanSelection options page roots elapsed).errorCount
        + (scanSelection options page roots elapsed).warningCount
        + (scanSelection options page roots elapsed).passCount
      = (scanSelection options page roots elapsed).totalScanned := by
  refine ⟨?_, ?_, ?_, rfl, ?_⟩
  · rw [List.countP_eq_length_filter]; rfl
  · rw [List.countP_eq_length_filter]; rfl
  · rw [List.countP_eq_length_filter]; rfl
  · exact issueType_partition (scanSelection options page roots elapsed).textLayers

/-- Heads of the range prefix kept by `takeWhile` when the first check
passes: one more than the kept prefix over the shifted predicate. -/
theorem takeWhile_range_succ_length (p : ℕ → Bool) (n : ℕ) (hp : p 0 = true) :
    ((List.range (n + 1)).takeWhile p).length
      = ((List.range n).takeWhile fun j => p (j + 1)).length + 1 := by
  simp [List.range_succ_eq_map, List.takeWhile_cons, hp, List.takeWhile_map,
    Function.comp, Nat.succ_eq_add_one]
  rfl

/-- Nothing of the range survives `takeWhile` when the first check fails. -/
theorem takeWhile_range_zero_length (p : ℕ → Bool) (n : ℕ) (hp : p 0 = false) :
    ((List.range (n + 1)).takeWhile p).length = 0 := by
  simp [List.range_succ_eq_map, List.takeWhile_cons, hp]

/-- The root loop visits exactly the longest prefix of roots whose
pre-visit elapsed-time checks pass, scans each visited root's subtree in
full, and reports a timeout exactly when some root was left unvisited. -/
theorem scanRootsLoop_characterisation (options : ScanOptions) (page : Page) (timeout : ℕ)
    (elapsed : ℕ → ℕ) (roots : List ScanRoot) :
    ∀ i : ℕ,
      scanRootsLoop options page timeout elapsed roots i =
        (((roots.take
            (((List.range roots.length).takeWhile
              fun j => decide (elapsed (i + j) ≤ timeout)).length)).map
            fun root => scanNodeRecursive root.node root.ancestors (some page) options).flatten,
         decide
          ((((List.range roots.length).takeWhile
              fun j => decide (elapsed (i + j) ≤ timeout)).length) < roots.length)) := by
  induction roots with
  | nil => intro i; rfl
  | cons root rest ih =>
      intro i
      by_cases h : timeout < elapsed i
      · have hp : (fun j => decide (elapsed (i + j) ≤ timeout)) 0 = false := by
          simp only [Nat.add_zero, decide_eq_false_iff_not, not_le]
          exact h
        rw [List.length_cons, takeWhile_range_zero_length _ _ hp]
        simp [scanRootsLoop, if_pos h]
      · have hle : elapsed i ≤ timeout := le_of_not_lt h
        have hp : (fun j => decide (elapsed (i + j) ≤ timeout)) 0 = true := by
          simp [hle]
        have hpred : (fun j => decide (elapsed (i + (j + 1)) ≤ timeout))
            = fun j => decide (elapsed ((i + 1) + j) ≤ timeout) := by
          funext j
          have harg : i + (j + 1) = (i + 1) + j := by omega
          rw [harg]
        have hlen : ((List.range (root :: rest).length).takeWhile
              fun j => decide (elapsed (i + j) ≤ timeout)).length
            = ((List.range rest.length).takeWhile
                fun j => decide (elapsed ((i + 1) + j) ≤ timeout)).length + 1 := by
          rw [List.length_cons, takeWhile_range_succ_length _ _ hp]
          rw [show (fun j => (fun j => decide (elapsed (i + j) ≤ timeout)) (j + 1))
                = fun j => decide (elapsed ((i + 1) + j) ≤ timeout) from hpred]
        rw [hlen]
        simp only [scanRootsLoop]
        rw [if_neg h, ih (i + 1)]
        simp only [List.take_succ_cons, List.map_cons, List.flatten_cons, List.length_cons,
          Prod.mk.injEq]
        refine ⟨trivial, ?_⟩
        rw [decide_eq_decide]
        omega

/-- `processTextNode` never reads its options argument. -/
theorem processTextNode_options_independent (node : SceneNode) (ancestors : List SceneNode)
    (page? : Option Page) (o1 o2 : ScanOptions) :
    processTextNode node ancestors page? o1 = processTextNode node ancestors page? o2 :=
  rfl

mutual

/-- The traversal reads only `includeHiddenLayers` from its options. -/
theorem scanNodeRecursive_options_congr (node : SceneNode) (ancestors : List SceneNode)
    (page? : Option Page) (o1 o2 : ScanOptions)
    (h : o1.includeHiddenLayers = o2.includeHiddenLayers) :
    scanNodeRecursive node ancestors page? o1 = scanNodeRecursive node ancestors page? o2 := by
  cases node with
  | node data children =>
      simp only [scanNodeRecursive, h]
      rw [scanChildrenNodes_options_congr children
          (SceneNode.node data children :: ancestors) page? o1 o2 h,
        processTextNode_options_independent (SceneNode.node data children) ancestors page? o1 o2]

/-- The child loop reads only `includeHiddenLayers` from its options. -/
theorem scanChildrenNodes_options_congr (nodes : List SceneNode) (ancestors : List SceneNode)
    (page? : Option Page) (o1 o2 : ScanOptions)
    (h : o1.includeHiddenLayers = o2.includeHiddenLayers) :
    scanChildrenNodes nodes ancestors page? o1 = scanChildrenNodes nodes ancestors page? o2 := by
  cases nodes with
  | nil => rfl
  | cons child rest =>
      simp only [scanChildrenNodes]
      rw [scanNodeRecursive_options_congr child ancestors page? o1 o2 h,
        scanChildrenNodes_options_congr rest ancestors page? o1 o2 h]

end

/-- The root loop reads only `includeHiddenLayers` from its options. -/
theorem scanRootsLoop_options_congr (page : Page) (timeout : ℕ) (elapsed : ℕ → ℕ)
    (o1 o2 : ScanOptions) (h : o1.includeHiddenLayers = o2.includeHiddenLayers) :
    ∀ (roots : List ScanRoot) (i : ℕ),
      scanRootsLoop o1 page timeout elapsed roots i =
        scanRootsLoop o2 page timeout elapsed roots i := by
  intro roots
  induction roots with
  | nil => intro i; rfl
  | cons root rest ih =>
      intro i
      simp only [scanRootsLoop]
      rw [scanNodeRecursive_options_congr root.node root.ancestors (some page) o1 o2 h, ih (i + 1)]

/-- A whole scan depends on its options only through `includeHiddenLayers`
and the resolved timeout `options.timeout ?? 30000`. -/
theorem scanSelection_options_congr (o1 o2 : ScanOptions) (page : Page)
    (roots : List ScanRoot) (elapsed : ℕ → ℕ)
    (hHidden : o1.includeHiddenLayers = o2.includeHiddenLayers)
    (hTimeout : o1.timeout.getD 30000 = o2.timeout.getD 30000) :
    scanSelection o1 page roots elapsed = scanSelection o2 page roots elapsed := by
  simp only [scanSelection]
  rw [hTimeout, scanRootsLoop_options_congr page (o2.timeout.getD 30000) elapsed o1 o2 hHidden]

/-- C3: elapsed time is compared against the timeout (`options.timeout`,
defaulting to 30000 when unspecified) only at top-level-root boundaries: the
scan's records are exactly the full subtree scans of the longest prefix of
roots whose pre-visit checks pass — so no later root is visited, records
already produced are kept, and no root's subtree is cut short — and
`timedOut` is set exactly when some root was left unvisited. -/
theorem c3_timeout_only_at_root_boundaries (options : ScanOptions) (page : Page)
    (roots : List ScanRoot) (elapsed : ℕ → ℕ) :
    ((scanSelection options page roots elapsed).textLayers =
        ((roots.take
            (((List.range roots.length).takeWhile
              fun i => decide (elapsed i ≤ options.timeout.getD 30000)).length)).map
            fun root => scanNodeRecursive root.node root.ancestors (some page) options).flatten ∧
      (scanSelection options page roots elapsed).timedOut =
        decide
          ((((List.range roots.length).takeWhile
            fun i => decide (elapsed i ≤ options.timeout.getD 30000)).length) < roots.length)) ∧
    scanSelection { options with timeout := Option.none } page roots elapsed =
      scanSelection { options with timeout := some 30000 } page roots elapsed := by
  have hchar := scanRootsLoop_characterisation options page (options.timeout.getD 30000)
    elapsed roots 0
  refine ⟨⟨?_, ?_⟩, ?_⟩
  · show (scanRootsLoop options page (options.timeout.getD 30000) elapsed roots 0).1 = _
    rw [hchar]
    simp only [Nat.zero_add]
  · show (scanRootsLoop options page (options.timeout.getD 30000) elapsed roots 0).2 = _
    rw [hchar]
    simp only [Nat.zero_add]
  · exact scanSelection_options_congr _ _ page roots elapsed rfl rfl

/-- C9: two scans over the same document state whose options differ only in
`minContrastRatio` and/or `checkLargeText` produce identical results —
records, ratios, levels, issue types, counts and the timed-out flag alike;
neither option is consulted anywhere in the scan or the classification. -/
theorem c9_min_ratio_and_large_text_options_inert (o1 o2 : ScanOptions) (page : Page)
    (roots : List ScanRoot) (elapsed : ℕ → ℕ)
    (hHidden : o1.includeHiddenLayers = o2.includeHiddenLayers)
    (hTimeout : o1.timeout = o2.timeout) :
    scanSelection o1 page roots elapsed = scanSelection o2 page roots elapsed :=
  scanSelection_options_congr o1 o2 page roots elapsed hHidden (by rw [hTimeout])

/-- C9 witness: two concrete option records agreeing on `includeHiddenLayers`
and `timeout` while differing in both `minContrastRatio` (4.5 versus 7) and
`checkLargeText` (true versus false) give equal scans. -/
theorem c9_min_ratio_and_large_text_options_inert_witness :
    ScanOptions.includeHiddenLayers ⟨4.5, true, false, Option.none⟩ =
        ScanOptions.includeHiddenLayers ⟨7, false, false, Option.none⟩ ∧
    ScanOptions.timeout ⟨4.5, true, false, Option.none⟩ =
        ScanOptions.timeout ⟨7, false, false, Option.none⟩ ∧
    scanSelection ⟨4.5, true, false, Option.none⟩ ⟨[]⟩ [] zeroElapsed =
        scanSelection ⟨7, false, false, Option.none⟩ ⟨[]⟩ [] zeroElapsed :=
  ⟨rfl, rfl,
    c9_min_ratio_and_large_text_options_inert ⟨4.5, true, false, Option.none⟩
      ⟨7, false, false, Option.none⟩ ⟨[]⟩ [] zeroElapsed rfl rfl⟩

end ContrastMate
